import Mathlib

set_option maxRecDepth 100000

/-!
Shallow embedding of `src/app.py` (weather-report-generator):
the `generate_report` function — prompt construction, the agent-call
error path, and the line-classification formatting loop — together
with the Python string primitives it relies on (`str.strip`,
`str.splitlines`, `str.startswith`, `str.replace`,
`datetime.date.isoformat`).

Strings are modelled as `List Char`; the docx document is modelled as
the ordered list of blocks (`add_heading` / `add_paragraph` calls).
-/

/-- Python `str.isspace` for a single character (the whitespace set of
CPython: ASCII whitespace, the C1/latin-1 spaces and the Unicode
space separators). -/
def py_isspace (c : Char) : Bool :=
  c = ' ' || c = '\t' || c = '\n' || c = '\r' || c = '\x0b' || c = '\x0c' ||
  c = '\x1c' || c = '\x1d' || c = '\x1e' || c = '\x1f' || c = '\x85' || c = '\xa0' ||
  c = ' ' || (' ' ≤ c && c ≤ ' ') || c = ' ' || c = ' ' ||
  c = ' ' || c = ' ' || c = '　'

/-- Python `str.strip()`: drop leading and trailing whitespace. -/
def py_strip (s : List Char) : List Char :=
  ((s.dropWhile py_isspace).reverse.dropWhile py_isspace).reverse

/-- Characters that terminate a line for Python `str.splitlines`. -/
def isLineBreak (c : Char) : Bool :=
  c = '\n' || c = '\r' || c = '\x0b' || c = '\x0c' ||
  c = '\x1c' || c = '\x1d' || c = '\x1e' || c = '\x85' ||
  c = ' ' || c = ' '

/-- Worker for `splitlines`; `acc` is the current line, reversed. -/
def splitlinesAux : List Char → List Char → List (List Char)
  | acc, [] => if acc.isEmpty then [] else [acc.reverse]
  | acc, '\r' :: '\n' :: rest => acc.reverse :: splitlinesAux [] rest
  | acc, c :: rest =>
      if isLineBreak c then acc.reverse :: splitlinesAux [] rest
      else splitlinesAux (c :: acc) rest

/-- Python `str.splitlines()`: split at line boundaries (`\r\n` counts
as a single boundary), no trailing empty line for a trailing break. -/
def splitlines (s : List Char) : List (List Char) :=
  splitlinesAux [] s

/-- Fuelled worker for Python `str.replace`: each step consumes at
least one character of `s`, so `s.length` fuel suffices. -/
def py_replaceF : Nat → List Char → List Char → List Char → List Char
  | 0, s, _, _ => s
  | _ + 1, [], _, _ => []
  | fuel + 1, c :: t, old, new =>
      if old ≠ [] ∧ List.isPrefixOf old (c :: t) then
        new ++ py_replaceF fuel ((c :: t).drop old.length) old new
      else
        c :: py_replaceF fuel t old new

/-- Python `s.replace(old, new)` (for non-empty `old`): replace every
non-overlapping occurrence of `old`, scanning left to right. -/
def py_replace (s old new : List Char) : List Char :=
  py_replaceF s.length s old new

/-- A docx block: one `add_heading(text, level)` or `add_paragraph(text)`
call made by `generate_report`. -/
inductive Block where
  | heading (text : List Char) (level : Nat)
  | paragraph (text : List Char)
deriving DecidableEq, Repr

/-- A calendar date, as produced by Python `datetime.date.today()`. -/
structure PyDate where
  year : Nat
  month : Nat
  day : Nat
deriving DecidableEq, Repr

/-- Left-pad a digit string with zeros to width `w`. -/
def padZeros (w : Nat) (l : List Char) : List Char :=
  List.replicate (w - l.length) '0' ++ l

/-- Python `datetime.date.isoformat()`: `YYYY-MM-DD` with zero padding. -/
def isoformat (d : PyDate) : List Char :=
  padZeros 4 (Nat.toDigits 10 d.year) ++ "-".data ++
  padZeros 2 (Nat.toDigits 10 d.month) ++ "-".data ++
  padZeros 2 (Nat.toDigits 10 d.day)

/-- The trailing note paragraph of `generate_report`:
`f"Generated with Gemini · {datetime.date.today().isoformat()}"`. -/
def generationNote (d : PyDate) : List Char :=
  "Generated with Gemini · ".data ++ isoformat d

/-- The `if`/`elif` chain of `generate_report` applied to one stripped,
non-empty line `text`: six literal `startswith` tests in source order,
each emitting a heading and then a paragraph holding
`text.replace(label, "").strip()`; otherwise one plain paragraph. -/
def formatLine (text : List Char) : List Block :=
  if List.isPrefixOf "Introduction:".data text then
    [Block.heading "Introduction".data 3,
     Block.paragraph (py_strip (py_replace text "Introduction:".data []))]
  else if List.isPrefixOf "Background:".data text then
    [Block.heading "Background".data 2,
     Block.paragraph (py_strip (py_replace text "Background:".data []))]
  else if List.isPrefixOf "Current Trends:".data text then
    [Block.heading "Current Trends".data 4,
     Block.paragraph (py_strip (py_replace text "Current Trends:".data []))]
  else if List.isPrefixOf "Key Data/Stats:".data text then
    [Block.heading "Key Data/Stats".data 1,
     Block.paragraph (py_strip (py_replace text "Key Data/Stats:".data []))]
  else if List.isPrefixOf "Opportunities/Risks:".data text then
    [Block.heading "Opportunities/Risks".data 1,
     Block.paragraph (py_strip (py_replace text "Opportunities/Risks:".data []))]
  else if List.isPrefixOf "Conclusion:".data text then
    [Block.heading "Conclusion".data 1,
     Block.paragraph (py_strip (py_replace text "Conclusion:".data []))]
  else
    [Block.paragraph text]

/-- One loop iteration of `generate_report` on a raw line:
`text = line.strip(); if not text: continue`, then `formatLine`. -/
def blocksOfLine (line : List Char) : List Block :=
  let text := py_strip line
  if text.isEmpty then [] else formatLine text

/-- The document built by the formatting part of `generate_report`
(lines 58–89 of `src/app.py`): title heading at level 0, the blocks of
each line of the report text, one blank paragraph, and the generation
note. `today` stands for `datetime.date.today()`. -/
def generate_report_doc (state report_text : List Char) (today : PyDate) :
    List Block :=
  Block.heading ("Research Report: ".data ++ state) 0 ::
  (((splitlines report_text).map blocksOfLine).flatten ++
   [Block.paragraph [], Block.paragraph (generationNote today)])

/-- A user-visible UI notice (`st.error`). -/
inductive UINotice where
  | error (msg : List Char)
deriving DecidableEq, Repr

/-- The message `generate_report` passes to `st.error` when the agent
call raises. -/
def agentFailureMsg : List Char :=
  "⚠️ API limit reached or an error occurred. Please try again later.".data

/-- `generate_report` with the outcome of `agent.run(system_prompt)`
made explicit: an exception (`Except.error`, carrying the exception
text) triggers `st.error` and `st.stop()` — one notice, no document;
any returned text (`Except.ok`) is formatted into a document. -/
def generate_report_run (state : List Char)
    (agentResult : Except (List Char) (List Char)) (today : PyDate) :
    List UINotice × Option (List Block) :=
  match agentResult with
  | Except.error _ => ([UINotice.error agentFailureMsg], none)
  | Except.ok report_text =>
      ([], some (generate_report_doc state report_text today))

/-- Text of the prompt f-string before the interpolated state name. -/
def promptPre : List Char :=
  "\nYou are a research assistant. Create a structured research report on: \"".data

/-- Text of the prompt f-string after the interpolated state name. -/
def promptSuf : List Char :=
  "\"\n- Use headings: Introduction, Background, Current Trends, Key Data/Stats, Opportunities/Risks, Conclusion\n".data ++
  "- Do NOT include source URLs inline\n- Make it concise but informative\n".data ++
  "- Use info from Wikipedia and web search (DuckDuckGo)\n".data

/-- The `system_prompt` f-string of `generate_report`, as a function of
the selected state name. -/
def system_prompt (state : List Char) : List Char :=
  promptPre ++ state ++ promptSuf

/-- The fixed list `indian_states` of `src/app.py` (31 entries). -/
def indian_states : List (List Char) :=
  ["Andhra Pradesh".data, "Arunachal Pradesh".data, "Assam".data, "Bihar".data,
   "Chhattisgarh".data, "Goa".data, "Gujarat".data, "Haryana".data,
   "Himachal Pradesh".data, "Jharkhand".data, "Karnataka".data, "Kerala".data,
   "Madhya Pradesh".data, "Maharashtra".data, "Manipur".data, "Meghalaya".data,
   "Mizoram".data, "Nagaland".data, "Odisha".data, "Punjab".data,
   "Rajasthan".data, "Sikkim".data, "Tamil Nadu".data, "Telangana".data,
   "Tripura".data, "Uttar Pradesh".data, "Uttarakhand".data, "West Bengal".data,
   "Delhi".data, "Jammu and Kashmir".data, "Ladakh".data]

/-- The six section labels, in the order the prompt specifies them. -/
def sectionLabels : List (List Char) :=
  ["Introduction".data, "Background".data, "Current Trends".data,
   "Key Data/Stats".data, "Opportunities/Risks".data, "Conclusion".data]

/-- `ContainsInOrder ps s`: the strings `ps` occur in `s` as
non-overlapping substrings, in the given order. -/
def ContainsInOrder : List (List Char) → List Char → Prop
  | [], _ => True
  | p :: ps, s => ∃ a rest, s = a ++ p ++ rest ∧ ContainsInOrder ps rest

/-- The ordered label table of the spec (§4.3): literal prefix and
heading level, checked first match wins. -/
def labelTable : List (List Char × Nat) :=
  [("Introduction:".data, 3), ("Background:".data, 2),
   ("Current Trends:".data, 4), ("Key Data/Stats:".data, 1),
   ("Opportunities/Risks:".data, 1), ("Conclusion:".data, 1)]

/-- Modelled from the spec's words (§4.3): classify a stripped line by
the first matching entry of the ordered `labelTable`; the heading text
is the label without its trailing colon. Used to compare the source's
`if`/`elif` chain against the spec's table description. -/
def formatLineSpec (text : List Char) : List Block :=
  match labelTable.find? (fun e => List.isPrefixOf e.1 text) with
  | some (lab, lvl) =>
      [Block.heading lab.dropLast lvl,
       Block.paragraph (py_strip (py_replace text lab []))]
  | none => [Block.paragraph text]

/-- The per-line groups of blocks produced by the loop, one group per
line that is non-empty after stripping. -/
def lineGroups (lines : List (List Char)) : List (List Block) :=
  lines.filterMap (fun l =>
    if (py_strip l).isEmpty then none else some (formatLine (py_strip l)))

lemma formatLine_shape (t : List Char) :
    (∃ h lvl p, formatLine t = [Block.heading h lvl, Block.paragraph p]) ∨
    (∃ p, formatLine t = [Block.paragraph p]) := by
  unfold formatLine
  repeat' split
  all_goals first
    | exact Or.inl ⟨_, _, _, rfl⟩
    | exact Or.inr ⟨_, rfl⟩

lemma formatLine_eq_spec (t : List Char) : formatLine t = formatLineSpec t := by
  by_cases h1 : List.isPrefixOf "Introduction:".data t = true
  · simp [formatLine, formatLineSpec, labelTable, List.find?, h1]
  · by_cases h2 : List.isPrefixOf "Background:".data t = true
    · simp [formatLine, formatLineSpec, labelTable, List.find?, h1, h2]
    · by_cases h3 : List.isPrefixOf "Current Trends:".data t = true
      · simp [formatLine, formatLineSpec, labelTable, List.find?, h1, h2, h3]
      · by_cases h4 : List.isPrefixOf "Key Data/Stats:".data t = true
        · simp [formatLine, formatLineSpec, labelTable, List.find?, h1, h2, h3, h4]
        · by_cases h5 : List.isPrefixOf "Opportunities/Risks:".data t = true
          · simp [formatLine, formatLineSpec, labelTable, List.find?, h1, h2, h3, h4, h5]
          · by_cases h6 : List.isPrefixOf "Conclusion:".data t = true
            · simp [formatLine, formatLineSpec, labelTable, List.find?, h1, h2, h3, h4, h5, h6]
            · simp [formatLine, formatLineSpec, labelTable, List.find?, h1, h2, h3, h4, h5, h6]

lemma flatten_blocksOfLine (lines : List (List Char)) :
    (lines.map blocksOfLine).flatten = (lineGroups lines).flatten := by
  induction lines with
  | nil => rfl
  | cons l ls ih =>
    by_cases h : py_strip l = []
    · simp [blocksOfLine, lineGroups, List.filterMap_cons, h, ih]
    · simpa [blocksOfLine, lineGroups, List.filterMap_cons, h] using ih

lemma length_lineGroups (lines : List (List Char)) :
    (lineGroups lines).length =
      (lines.filter (fun l => !(py_strip l).isEmpty)).length := by
  induction lines with
  | nil => rfl
  | cons l ls ih =>
    by_cases h : py_strip l = []
    · simpa [lineGroups, List.filterMap_cons, List.filter_cons, h] using ih
    · simpa [lineGroups, List.filterMap_cons, List.filter_cons, h] using ih

lemma mem_lineGroups {lines : List (List Char)} {g : List Block}
    (hg : g ∈ lineGroups lines) : ∃ t, g = formatLine t := by
  simp only [lineGroups, List.mem_filterMap] at hg
  obtain ⟨l, _, hl⟩ := hg
  by_cases h : py_strip l = []
  · simp [h] at hl
  · simp [h] at hl
    exact ⟨py_strip l, hl.symm⟩

lemma containsInOrder_append_left (L : List (List Char)) (a s : List Char)
    (h : ContainsInOrder L s) : ContainsInOrder L (a ++ s) := by
  cases L with
  | nil => trivial
  | cons p ps =>
    simp only [ContainsInOrder] at h ⊢
    obtain ⟨g, r, e, hrest⟩ := h
    exact ⟨a ++ g, r, by rw [e]; simp [List.append_assoc], hrest⟩

lemma promptSuf_contains_labels : ContainsInOrder sectionLabels promptSuf := by
  simp only [sectionLabels, ContainsInOrder]
  refine ⟨"\"\n- Use headings: ".data,
    ", Background, Current Trends, Key Data/Stats, Opportunities/Risks, Conclusion\n".data ++
      "- Do NOT include source URLs inline\n- Make it concise but informative\n".data ++
      "- Use info from Wikipedia and web search (DuckDuckGo)\n".data,
    by decide, ?_⟩
  refine ⟨", ".data,
    ", Current Trends, Key Data/Stats, Opportunities/Risks, Conclusion\n".data ++
      "- Do NOT include source URLs inline\n- Make it concise but informative\n".data ++
      "- Use info from Wikipedia and web search (DuckDuckGo)\n".data,
    by decide, ?_⟩
  refine ⟨", ".data,
    ", Key Data/Stats, Opportunities/Risks, Conclusion\n".data ++
      "- Do NOT include source URLs inline\n- Make it concise but informative\n".data ++
      "- Use info from Wikipedia and web search (DuckDuckGo)\n".data,
    by decide, ?_⟩
  refine ⟨", ".data,
    ", Opportunities/Risks, Conclusion\n".data ++
      "- Do NOT include source URLs inline\n- Make it concise but informative\n".data ++
      "- Use info from Wikipedia and web search (DuckDuckGo)\n".data,
    by decide, ?_⟩
  refine ⟨", ".data,
    ", Conclusion\n".data ++
      "- Do NOT include source URLs inline\n- Make it concise but informative\n".data ++
      "- Use info from Wikipedia and web search (DuckDuckGo)\n".data,
    by decide, ?_⟩
  exact ⟨", ".data,
    "\n".data ++
      "- Do NOT include source URLs inline\n- Make it concise but informative\n".data ++
      "- Use info from Wikipedia and web search (DuckDuckGo)\n".data,
    by decide, trivial⟩

/-- C1: for any state, report text and date, the document built by the
formatting loop of `generate_report` is the title heading, followed by
one group of blocks per input line that is non-empty after trimming —
each group a heading+paragraph pair or a lone paragraph, in input line
order — followed by the blank paragraph and the trailing note
paragraph; the number of groups equals the number of non-empty trimmed
lines. -/
theorem c1_block_count (state report_text : List Char) (d : PyDate) :
    ∃ groups : List (List Block),
      generate_report_doc state report_text d =
        Block.heading ("Research Report: ".data ++ state) 0 ::
          (groups.flatten ++
            [Block.paragraph [], Block.paragraph (generationNote d)]) ∧
      groups.length =
        ((splitlines report_text).filter
          (fun l => !(py_strip l).isEmpty)).length ∧
      ∀ g ∈ groups,
        (∃ h lvl p, g = [Block.heading h lvl, Block.paragraph p]) ∨
        (∃ p, g = [Block.paragraph p]) := by
  refine ⟨lineGroups (splitlines report_text), ?_, length_lineGroups _, ?_⟩
  · unfold generate_report_doc
    rw [flatten_blocksOfLine]
  · intro g hg
    obtain ⟨t, rfl⟩ := mem_lineGroups hg
    exact formatLine_shape t

/-- C2 (counterexample): on the line `"Introduction: x Introduction: y"`
the formatter's paragraph is `"x  y"` — `str.replace` removed BOTH
occurrences of the label — whereas stripping only the leading label
prefix and trimming again leaves `"x Introduction: y"`; the two
differ, so the paragraph does not preserve all other characters of the
line. -/
theorem c2_counterexample :
    formatLine "Introduction: x Introduction: y".data =
      [Block.heading "Introduction".data 3, Block.paragraph "x  y".data] ∧
    py_strip (List.drop ("Introduction:".data).length
        "Introduction: x Introduction: y".data) = "x Introduction: y".data ∧
    "x  y".data ≠ "x Introduction: y".data := by
  refine ⟨by decide, by decide, by decide⟩

/-- C2 (amended): for every line whose trimmed text starts with one of
the six recognized label prefixes (first match in table order), the
formatter emits a heading at the mapped level followed by one
paragraph whose text is the line with EVERY occurrence of the label
string removed (Python `str.replace(label, "")`), trimmed again. -/
theorem c2_label_replace_all (t lab : List Char) (lvl : Nat)
    (h : labelTable.find? (fun e => List.isPrefixOf e.1 t) = some (lab, lvl)) :
    formatLine t =
      [Block.heading lab.dropLast lvl,
       Block.paragraph (py_strip (py_replace t lab []))] := by
  rw [formatLine_eq_spec, formatLineSpec, h]

/-- C2 (witness): the amended theorem applied to the concrete line
`"Background: text here"`. -/
theorem c2_witness :
    labelTable.find?
        (fun e => List.isPrefixOf e.1 "Background: text here".data) =
      some ("Background:".data, 2) ∧
    formatLine "Background: text here".data =
      [Block.heading ("Background:".data).dropLast 2,
       Block.paragraph (py_strip (py_replace "Background: text here".data
        "Background:".data []))] :=
  ⟨by decide, c2_label_replace_all _ _ _ (by decide)⟩

/-- C3 (counterexample): when the agent call returns EMPTY output, the
code raises no error and produces a document — refuting the part of
the claim that says `generate` fails on empty/unusable output. -/
theorem c3_counterexample :
    (generate_report_run "Kerala".data (Except.ok []) ⟨2026, 10, 12⟩).1 = [] ∧
    ((generate_report_run "Kerala".data
        (Except.ok []) ⟨2026, 10, 12⟩).2).isSome = true := by
  refine ⟨rfl, rfl⟩

/-- C3 (amended): the agent-call portion of `generate_report` fails —
one error notice, no document — exactly when the external agent call
raises an exception; any returned text, including empty output, is
tolerated and yields a document. -/
theorem c3_agent_error_only_on_exception (state e t : List Char) (d : PyDate) :
    generate_report_run state (Except.error e) d =
      ([UINotice.error agentFailureMsg], none) ∧
    (generate_report_run state (Except.ok t) d).1 = [] ∧
    ((generate_report_run state (Except.ok t) d).2).isSome = true :=
  ⟨rfl, rfl, rfl⟩

/-- C4: the source's `if`/`elif` chain coincides, on every stripped
line, with the spec's ordered label table — literal prefix match,
first match wins, labels `Introduction:`, `Background:`,
`Current Trends:`, `Key Data/Stats:`, `Opportunities/Risks:`,
`Conclusion:` at levels 3, 2, 4, 1, 1, 1 in that check order. -/
theorem c4_table_first_match (t : List Char) :
    formatLine t = formatLineSpec t :=
  formatLine_eq_spec t

/-- C5: when the agent call raises, `generate_report` surfaces exactly
one user-visible error notice and returns no document — the block
list is `none`, so document construction never starts. -/
theorem c5_error_path (state e : List Char) (d : PyDate) :
    generate_report_run state (Except.error e) d =
      ([UINotice.error agentFailureMsg], none) :=
  rfl

/-- C6: for every state, report text and date, the document ends with
exactly one blank paragraph followed by one paragraph holding the
fixed-format generation note with the date in ISO `YYYY-MM-DD`
(zero-padded) format. -/
theorem c6_trailing_note (state report_text : List Char) (d : PyDate) :
    ∃ body : List Block,
      generate_report_doc state report_text d =
        Block.heading ("Research Report: ".data ++ state) 0 ::
          (body ++
            [Block.paragraph [],
             Block.paragraph ("Generated with Gemini · ".data ++
               (padZeros 4 (Nat.toDigits 10 d.year) ++ "-".data ++
                padZeros 2 (Nat.toDigits 10 d.month) ++ "-".data ++
                padZeros 2 (Nat.toDigits 10 d.day)))]) :=
  ⟨_, rfl⟩

/-- C7: the line `"Key Data/Stats:"` (recognized prefix, empty
remainder) yields a level-1 heading `"Key Data/Stats"` followed by an
empty paragraph. -/
theorem c7_empty_remainder :
    blocksOfLine "Key Data/Stats:".data =
      [Block.heading "Key Data/Stats".data 1, Block.paragraph []] := by
  decide

/-- C8: for every one of the 31 fixed entity names, the prompt built by
`generate_report` contains that exact name, and contains the six
section labels Introduction, Background, Current Trends,
Key Data/Stats, Opportunities/Risks, Conclusion in that order. -/
theorem c8_prompt_contains (s : List Char) (hs : s ∈ indian_states) :
    (∃ a b, system_prompt s = a ++ s ++ b) ∧
    ContainsInOrder sectionLabels (system_prompt s) := by
  refine ⟨⟨promptPre, promptSuf, rfl⟩, ?_⟩
  have h := containsInOrder_append_left sectionLabels (promptPre ++ s)
    promptSuf promptSuf_contains_labels
  rw [List.append_assoc] at h
  exact h

/-- C8 (witness): the theorem applied to the concrete state
`"Kerala"`. -/
theorem c8_witness :
    "Kerala".data ∈ indian_states ∧
    ((∃ a b, system_prompt "Kerala".data = a ++ "Kerala".data ++ b) ∧
     ContainsInOrder sectionLabels (system_prompt "Kerala".data)) :=
  ⟨by decide, c8_prompt_contains "Kerala".data (by decide)⟩

/-- C9: the formatting portion of `generate_report` is deterministic —
two runs with the same state name, the same agent-returned text and
the same current date (the only ambient input, made explicit here)
produce identical block sequences. -/
theorem c9_deterministic (s₁ s₂ t₁ t₂ : List Char) (d₁ d₂ : PyDate)
    (hs : s₁ = s₂) (ht : t₁ = t₂) (hd : d₁ = d₂) :
    generate_report_doc s₁ t₁ d₁ = generate_report_doc s₂ t₂ d₂ := by
  rw [hs, ht, hd]

/-- C9 (witness): the theorem applied to two identical concrete runs. -/
theorem c9_witness :
    generate_report_doc "Goa".data "Introduction: hi".data ⟨2026, 10, 12⟩ =
      generate_report_doc "Goa".data "Introduction: hi".data ⟨2026, 10, 12⟩ :=
  c9_deterministic _ _ _ _ _ _ rfl rfl rfl

/-- C10: a line that is non-empty after trimming and whose trimmed text
starts with none of the six labels yields exactly one plain paragraph
holding the trimmed line, and no heading. -/
theorem c10_unmatched_plain (line : List Char)
    (hne : (py_strip line).isEmpty = false)
    (hnm : ∀ e ∈ labelTable, List.isPrefixOf e.1 (py_strip line) = false) :
    blocksOfLine line = [Block.paragraph (py_strip line)] ∧
    ∀ h lvl, Block.heading h lvl ∉ blocksOfLine line := by
  have h1 := hnm ("Introduction:".data, 3) (by simp [labelTable])
  have h2 := hnm ("Background:".data, 2) (by simp [labelTable])
  have h3 := hnm ("Current Trends:".data, 4) (by simp [labelTable])
  have h4 := hnm ("Key Data/Stats:".data, 1) (by simp [labelTable])
  have h5 := hnm ("Opportunities/Risks:".data, 1) (by simp [labelTable])
  have h6 := hnm ("Conclusion:".data, 1) (by simp [labelTable])
  have hb : blocksOfLine line = [Block.paragraph (py_strip line)] := by
    simp only [blocksOfLine, hne, Bool.false_eq_true, if_false,
      formatLine, h1, h2, h3, h4, h5, h6]
  exact ⟨hb, by simp [hb]⟩

/-- C10 (witness): the theorem applied to the decorated line
`"**Introduction:**"`, which starts with no recognized label. -/
theorem c10_witness :
    ((py_strip "**Introduction:**".data).isEmpty = false ∧
     ∀ e ∈ labelTable,
       List.isPrefixOf e.1 (py_strip "**Introduction:**".data) = false) ∧
    (blocksOfLine "**Introduction:**".data =
       [Block.paragraph (py_strip "**Introduction:**".data)] ∧
     ∀ h lvl, Block.heading h lvl ∉ blocksOfLine "**Introduction:**".data) :=
  ⟨⟨by decide, by decide⟩, c10_unmatched_plain _ (by decide) (by decide)⟩
